import Mathlib

/-
  Verification development for the pylox tree-walking interpreter.

  The definitions below are a shallow embedding of the Python source:
    - src/scanner/scanner.py        (lexer; `Scanner`)
    - src/scanner.py                (token model: `TokenType`, `Token`, `KEYWORD_MAP`)
    - src/parser/expr.py            (expression AST)
    - src/parser/stmt.py            (statement AST)
    - src/resolver/resolver.py      (`Resolver`)
    - src/interpreter/environment.py (`Environment`)
    - src/interpreter/error.py      (`RuntimeError`, `Return`)
    - src/interpreter/callable.py   (`LoxFunction`, `Clock`)
    - src/interpreter/interpreter.py (`Interpreter`)

  Modelling conventions, chosen once and used throughout:
    - Python floats are modelled as exact rationals (ℚ).  The numeric claims we
      settle do not depend on rounding, overflow or NaN.
    - Python dicts are modelled as association lists whose membership and update
      are governed by the Python `__eq__` of the keys (`dictSet`, `localsInsert`).
      An update with an equal key replaces the stored value and keeps the
      originally stored key object, as CPython does.
    - Python exceptions are modelled by the `PyExc` sum: `rt` embeds the
      interpreter's own `RuntimeError(token, message)`, `ret` embeds the
      `Return(value)` signal (a subclass of that `RuntimeError` in error.py,
      which is why `isRuntimeError` holds of both), and `host` stands for a
      host-level Python exception (AttributeError, KeyError, ...) that the
      interpreter never catches.
    - Mutation is explicit state passing: a heap of environment frames plus the
      interpreter fields (`St`), threaded through every evaluator function.
    - Recursion in the evaluated language is handled with a fuel parameter; fuel
      exhaustion is modelled as the host RecursionError the spec acknowledges.
    - Object identity of AST nodes is modelled by a numeric `id` field on
      `varRef` and `assign` nodes.  It plays no role in Python `__eq__`
      (which is structural for these dataclasses) and exists only so that
      statements about distinct node objects can be expressed.
-/

namespace Pylox

/-- Token kinds, the closed set from src/scanner.py (`TokenType`). -/
inductive TokenType where
  | LEFT_PAREN | RIGHT_PAREN | LEFT_BRACE | RIGHT_BRACE
  | COMMA | DOT | MINUS | PLUS | SEMICOLON | SLASH | STAR
  | BANG | BANG_EQUAL | EQUAL | EQUAL_EQUAL
  | GREATER | GREATER_EQUAL | LESS | LESS_EQUAL
  | IDENTIFIER | STRING | NUMBER
  | AND | CLASS | ELSE | FALSE | FUN | FOR | IF | NIL | OR
  | PRINT | RETURN | SUPER | THIS | TRUE | VAR | WHILE
  | EOF
  deriving DecidableEq, Repr

/-- A token's `literal` payload: in the source it is `None`, a float, a string
or a boolean (src/scanner.py `Token.literal : object`). -/
inductive LitVal where
  | lnil
  | lbool (b : Bool)
  | lnum (q : ℚ)
  | lstr (s : String)
  deriving DecidableEq, Repr

/-- Python `==` on literal payloads.  `bool` is an `int` subclass in Python, so
`True == 1.0` and `False == 0.0` hold; every other cross-type comparison of
these payloads is `False`, and `None == None` is `True`. -/
def pyEqLit : LitVal → LitVal → Bool
  | .lnil, .lnil => true
  | .lbool a, .lbool b => a == b
  | .lbool a, .lnum q => (if a then (1 : ℚ) else 0) == q
  | .lnum q, .lbool a => q == (if a then (1 : ℚ) else 0)
  | .lnum a, .lnum b => a == b
  | .lstr a, .lstr b => a == b
  | _, _ => false

/-- `Token` from src/scanner.py: a dataclass with fields
`type, lexeme, literal, line`. -/
structure Token where
  type : TokenType
  lexeme : String
  literal : LitVal
  line : Nat
  deriving DecidableEq, Repr

/-- Python `==` on tokens: the dataclass compares the field tuple with `==`,
so the literal payload is compared with Python equality. -/
def tokenEq (a b : Token) : Bool :=
  a.type == b.type && a.lexeme == b.lexeme && pyEqLit a.literal b.literal && a.line == b.line

/-- Expression AST from src/parser/expr.py.  `varRef` embeds the `Variable`
node and `assign` the `Assign` node; their `id` field models Python object
identity and is not a dataclass field (Python `__eq__` ignores it). -/
inductive Expr where
  | lit (value : LitVal)
  | grouping (inner : Expr)
  | unary (op : Token) (right : Expr)
  | binary (left : Expr) (op : Token) (right : Expr)
  | logical (left : Expr) (op : Token) (right : Expr)
  | varRef (id : Nat) (name : Token)
  | assign (id : Nat) (name : Token) (value : Expr)
  | call (callee : Expr) (paren : Token) (args : List Expr)

/-- Statement AST from src/parser/stmt.py.  `funDecl` embeds `Function`
(name, params, body).  `returnS` embeds the `Return` statement node
(keyword, value) that interpreter.py and resolver.py import and consume;
its dataclass itself is absent from stmt.py, so its two fields are taken
from those consumers and from the grammar (`returnStmt → "return" expression? ";"`). -/
inductive Stmt where
  | expression (e : Expr)
  | print (e : Expr)
  | varDecl (name : Token) (initializer : Option Expr)
  | block (statements : List Stmt)
  | ifS (condition : Expr) (thenBranch : Stmt) (elseBranch : Option Stmt)
  | whileS (condition : Expr) (body : Stmt)
  | funDecl (name : Token) (params : List Token) (body : List Stmt)
  | returnS (keyword : Token) (value : Option Expr)

/-- Runtime values.  `vfun` embeds `LoxFunction(declaration, closure)` from
src/interpreter/callable.py, with `fnId` modelling the identity of the Python
object and `closure` an environment id into the heap; `vclock` is the single
`Clock` native. -/
inductive Value where
  | vnil
  | vbool (b : Bool)
  | vnum (q : ℚ)
  | vstr (s : String)
  | vclock
  | vfun (fnId : Nat) (name : Token) (params : List Token) (body : List Stmt) (closure : Nat)

/-- The value of a literal expression (`visit_literal_expr` returns the stored
payload unchanged). -/
def toValue : LitVal → Value
  | .lnil => .vnil
  | .lbool b => .vbool b
  | .lnum q => .vnum q
  | .lstr s => .vstr s

/-- Python truthiness of a runtime value, as applied by the interpreter at
`if self.evaluate(...)` (visit_if_stmt), `while self.evaluate(...)`
(visit_while_stmt), `if left:` (visit_logical_expr) and `not right`
(visit_unary_expr): `None` and `False` are falsey, and so are the float `0.0`
and the empty string; callables and everything else are truthy. -/
def pyTruthy : Value → Bool
  | .vnil => false
  | .vbool b => b
  | .vnum q => q != 0
  | .vstr s => s != ""
  | .vclock => true
  | .vfun _ _ _ _ _ => true

/-- Python `==` on runtime values, as applied by `visit_binary_expr` for
`EQUAL_EQUAL` (`left == right`).  Same-type values compare by value; `bool`
is an `int` subclass, so booleans compare numerically against floats;
callables (plain objects) compare by identity; all other cross-type
comparisons are `False`. -/
def pyEq : Value → Value → Bool
  | .vnil, .vnil => true
  | .vbool a, .vbool b => a == b
  | .vbool a, .vnum q => (if a then (1 : ℚ) else 0) == q
  | .vnum q, .vbool a => q == (if a then (1 : ℚ) else 0)
  | .vnum a, .vnum b => a == b
  | .vstr a, .vstr b => a == b
  | .vclock, .vclock => true
  | .vfun i _ _ _ _, .vfun j _ _ _ _ => i == j
  | _, _ => false

/-- Left-pad a numeral string with zeros to the requested width. -/
def padZeros (w : Nat) (s : String) : String :=
  String.mk (List.replicate (w - s.length) '0') ++ s

/-- Model of CPython `str()` on a float, for values that are exact decimals:
integers render as `"n.0"`, and a fraction with a terminating decimal
expansion renders with its shortest digit string, as CPython's shortest-repr
does on such values.  (Rationals without a terminating expansion fall back to
a fraction spelling; no claim below evaluates `str()` there.) -/
def floatStr (q : ℚ) : String :=
  if q.den = 1 then toString q.num ++ ".0"
  else
    let sign := if q < 0 then "-" else ""
    let n := q.num.natAbs
    let d := q.den
    match (List.range 40).find? (fun k => n * 10 ^ (k + 1) % d = 0) with
    | some k =>
      let kk := k + 1
      let scaled := n * 10 ^ kk / d
      let ip := scaled / 10 ^ kk
      let fp := scaled % 10 ^ kk
      sign ++ toString ip ++ "." ++ padZeros kk (toString fp)
    | none => sign ++ toString n ++ "/" ++ toString d

/-- The trailing-`".0"` strip performed by `Interpreter.stringify`
(`if text.endswith(".0"): text = text[:-2]`), phrased over the character
list so that it evaluates by reduction. -/
def stripDotZero (s : String) : String :=
  match s.data.reverse with
  | '0' :: '.' :: rest => String.mk rest.reverse
  | _ => s

/-- Model of Python `str()` on a runtime value: booleans render capitalized
(`str(True) = "True"`), strings render as themselves, `None` as `"None"`,
and the callables as their `__str__` from callable.py. -/
def pyStr : Value → String
  | .vnil => "None"
  | .vbool b => if b then "True" else "False"
  | .vnum q => floatStr q
  | .vstr s => s
  | .vclock => "<native fn>"
  | .vfun _ name _ _ _ => "<fn " ++ name.lexeme ++ ">"

/-- `Interpreter.stringify`: `None` maps to `"nil"`; a float maps to its
`str()` text with a trailing `".0"` removed; everything else maps to its
Python `str()`. -/
def stringify : Value → String
  | .vnil => "nil"
  | .vnum q => stripDotZero (floatStr q)
  | v => pyStr v

mutual

/-- Python `==` on expression nodes.  Each AST dataclass compares its field
tuple structurally — except `Variable`, whose overridden `__eq__`
(src/parser/expr.py lines 90-93) compares only the name token and returns
`False` for non-`Variable` operands.  Literal payloads and tokens are compared
with Python equality; the identity field `id` of `varRef`/`assign` is not a
dataclass field and plays no part. -/
def exprEq : Expr → Expr → Bool
  | .lit a, .lit b => pyEqLit a b
  | .grouping a, .grouping b => exprEq a b
  | .unary o1 r1, .unary o2 r2 => tokenEq o1 o2 && exprEq r1 r2
  | .binary l1 o1 r1, .binary l2 o2 r2 => exprEq l1 l2 && tokenEq o1 o2 && exprEq r1 r2
  | .logical l1 o1 r1, .logical l2 o2 r2 => exprEq l1 l2 && tokenEq o1 o2 && exprEq r1 r2
  | .varRef _ n1, .varRef _ n2 => tokenEq n1 n2
  | .assign _ n1 v1, .assign _ n2 v2 => tokenEq n1 n2 && exprEq v1 v2
  | .call c1 p1 a1, .call c2 p2 a2 => exprEq c1 c2 && tokenEq p1 p2 && exprListEq a1 a2
  | _, _ => false

/-- Python `==` on lists of expressions (element-wise). -/
def exprListEq : List Expr → List Expr → Bool
  | [], [] => true
  | x :: xs, y :: ys => exprEq x y && exprListEq xs ys
  | _, _ => false

end

/-- A key of the `Interpreter.locals` dict.  The resolver stores `Variable`
nodes (`kvar`) and `Assign` nodes (`kassign`) via `Interpreter.resolve`;
`visit_assign_expr` additionally probes the dict with the bare name token
(`expr.name in self.locals`), which `ktok` embeds.  The `id` arguments record
object identity; dict equality (`lkeyEq`) ignores them, as Python `__eq__`
does. -/
inductive LKey where
  | kvar (id : Nat) (name : Token)
  | kassign (id : Nat) (name : Token) (value : Expr)
  | ktok (t : Token)

/-- Python `==` between `locals` keys.  A `Variable` equals only a `Variable`
with an equal name token; an `Assign` dataclass equals only an `Assign` with
equal fields; a bare `Token` equals neither kind of node. -/
def lkeyEq : LKey → LKey → Bool
  | .kvar _ n1, .kvar _ n2 => tokenEq n1 n2
  | .kassign _ n1 v1, .kassign _ n2 v2 => tokenEq n1 n2 && exprEq v1 v2
  | .ktok a, .ktok b => tokenEq a b
  | _, _ => false

/-- Lookup in the `locals` dict: the value stored under the first key equal
(in the Python sense) to the probe, if any. -/
def localsGet : List (LKey × Nat) → LKey → Option Nat
  | [], _ => none
  | (k0, d0) :: rest, k => if lkeyEq k0 k then some d0 else localsGet rest k

/-- Python `in` on the `locals` dict. -/
def localsHasKey (tbl : List (LKey × Nat)) (k : LKey) : Bool :=
  (localsGet tbl k).isSome

/-- Python dict assignment `self.locals[expr] = depth` (`Interpreter.resolve`):
if an equal key is present its value is replaced (the originally stored key
object is kept), otherwise the pair is appended. -/
def localsInsert : List (LKey × Nat) → LKey → Nat → List (LKey × Nat)
  | [], k, d => [(k, d)]
  | (k0, d0) :: rest, k, d =>
    if lkeyEq k0 k then (k0, d) :: rest else (k0, d0) :: localsInsert rest k d

/-- `KEYWORD_MAP` from src/scanner.py: the fixed table promoting identifiers
to keyword kinds. -/
def kwLookup : String → Option TokenType
  | "and" => some .AND
  | "class" => some .CLASS
  | "else" => some .ELSE
  | "false" => some .FALSE
  | "for" => some .FOR
  | "fun" => some .FUN
  | "if" => some .IF
  | "nil" => some .NIL
  | "or" => some .OR
  | "print" => some .PRINT
  | "return" => some .RETURN
  | "super" => some .SUPER
  | "this" => some .THIS
  | "true" => some .TRUE
  | "var" => some .VAR
  | "while" => some .WHILE
  | _ => none

/-- Scanner state (src/scanner/scanner.py): the three cursors, the token list,
and the two output channels the scanner writes to — `reports`/`hadError` model
the Reporter (`pylox.scanner_error` → `Pylox.report`, which sets `had_error`),
while `printed` models the bare `print(...)` calls that bypass the Reporter. -/
structure ScanState where
  source : List Char
  start : Nat
  current : Nat
  line : Nat
  tokens : List Token
  reports : List String
  hadError : Bool
  printed : List String

/-- `Scanner.is_at_end`. -/
def ScanState.isAtEnd (σ : ScanState) : Bool :=
  σ.current ≥ σ.source.length

/-- `Scanner.peek`: the current character, or `None` at end of input. -/
def ScanState.peekC (σ : ScanState) : Option Char :=
  σ.source.get? σ.current

/-- `Scanner.peek_next`. -/
def ScanState.peekNext (σ : ScanState) : Option Char :=
  σ.source.get? (σ.current + 1)

/-- `Scanner.advance`: unconditionally step the cursor and return the consumed
character (a host IndexError would occur past the end; every call site is
guarded). -/
def ScanState.advanceC (σ : ScanState) : Except String (Char × ScanState) :=
  match σ.source.get? σ.current with
  | some c => .ok (c, { σ with current := σ.current + 1 })
  | none => .error "IndexError: string index out of range"

/-- The source substring `source[start:current]`, the lexeme of the token
being scanned. -/
def ScanState.lexemeStr (σ : ScanState) : String :=
  String.mk ((σ.source.drop σ.start).take (σ.current - σ.start))

/-- `Scanner.add_token`. -/
def ScanState.addToken (σ : ScanState) (type : TokenType) (literal : LitVal := .lnil) : ScanState :=
  { σ with tokens := σ.tokens ++ [⟨type, σ.lexemeStr, literal, σ.line⟩] }

/-- `pylox.scanner_error` → `Pylox.report(line, "", message)`: appends the
formatted diagnostic to the compile-error channel and sets `had_error`. -/
def ScanState.reportError (σ : ScanState) (msg : String) : ScanState :=
  { σ with reports := σ.reports ++ ["[line " ++ toString σ.line ++ "] Error: " ++ msg],
           hadError := true }

/-- Value of a decimal digit character. -/
def digitVal (c : Char) : Nat := c.toNat - 48

/-- `float(...)` on a scanned numeric lexeme: digits, an optional dot, digits. -/
def parseNumber (cs : List Char) : ℚ :=
  let intPart := cs.takeWhile (fun c => c ≠ '.')
  let fracPart := (cs.dropWhile (fun c => c ≠ '.')).drop 1
  let ip : Nat := intPart.foldl (fun a c => a * 10 + digitVal c) 0
  let fp : Nat := fracPart.foldl (fun a c => a * 10 + digitVal c) 0
  (ip : ℚ) + (fp : ℚ) / ((10 : ℚ) ^ fracPart.length)

/-- The body loop of `Scanner.string`:
`while self.peek() and self.peek() != '"': ...` (a character is always truthy,
so the loop runs until the closing quote or end of input). -/
def stringLoop : Nat → ScanState → Except String ScanState
  | 0, _ => .error "RecursionError: scanner fuel exhausted"
  | fuel + 1, σ =>
    match σ.peekC with
    | some c =>
      if c = '"' then .ok σ
      else
        let σ := if c = '\n' then { σ with line := σ.line + 1 } else σ
        match σ.advanceC with
        | .ok (_, σ1) => stringLoop fuel σ1
        | .error e => .error e
    | none => .ok σ

/-- `Scanner.string`: scan to the closing quote; an unterminated string is
reported with a bare `print` (not through the Reporter) and emits no token;
otherwise the literal is the interior of the quotes. -/
def scanString (fuel : Nat) (σ : ScanState) : Except String ScanState :=
  match stringLoop fuel σ with
  | .error e => .error e
  | .ok σ1 =>
    if σ1.isAtEnd then
      .ok { σ1 with printed := σ1.printed ++
              ["[Line: " ++ toString σ1.line ++ "] Error: Unterminated string."] }
    else
      match σ1.advanceC with
      | .error e => .error e
      | .ok (_, σ2) =>
        let interior := String.mk (((σ2.source.drop (σ2.start + 1))).take (σ2.current - 1 - (σ2.start + 1)))
        .ok (σ2.addToken .STRING (.lstr interior))

/-- `while self.peek() and self.peek().isdigit(): self.advance()`. -/
def digitLoop : Nat → ScanState → Except String ScanState
  | 0, _ => .error "RecursionError: scanner fuel exhausted"
  | fuel + 1, σ =>
    match σ.peekC with
    | some c =>
      if c.isDigit then
        match σ.advanceC with
        | .ok (_, σ1) => digitLoop fuel σ1
        | .error e => .error e
      else .ok σ
    | none => .ok σ

/-- `Scanner.number`.  After the integer digits, the fractional part is taken
only when `self.peek() == "." and self.peek_next().isdigit()`; when the dot is
the last character of the source, `peek_next()` is `None` and the attribute
access raises a host AttributeError. -/
def scanNumber (fuel : Nat) (σ : ScanState) : Except String ScanState :=
  match digitLoop fuel σ with
  | .error e => .error e
  | .ok σ1 =>
    let finish (σf : ScanState) : Except String ScanState :=
      .ok (σf.addToken .NUMBER (.lnum (parseNumber ((σf.source.drop σf.start).take (σf.current - σf.start)))))
    if σ1.peekC = some '.' then
      match σ1.peekNext with
      | none => .error "AttributeError: NoneType object has no attribute isdigit"
      | some c2 =>
        if c2.isDigit then
          match σ1.advanceC with
          | .error e => .error e
          | .ok (_, σ2) =>
            match digitLoop fuel σ2 with
            | .error e => .error e
            | .ok σ3 => finish σ3
        else finish σ1
    else finish σ1

/-- `while self.peek() and self.peek().isalnum(): self.advance()`. -/
def alnumLoop : Nat → ScanState → Except String ScanState
  | 0, _ => .error "RecursionError: scanner fuel exhausted"
  | fuel + 1, σ =>
    match σ.peekC with
    | some c =>
      if c.isAlphanum then
        match σ.advanceC with
        | .ok (_, σ1) => alnumLoop fuel σ1
        | .error e => .error e
      else .ok σ
    | none => .ok σ

/-- `Scanner.identifier`: scan the alphanumeric tail, then promote the lexeme
through `KEYWORD_MAP` or fall back to `IDENTIFIER`. -/
def scanIdentifier (fuel : Nat) (σ : ScanState) : Except String ScanState :=
  match alnumLoop fuel σ with
  | .error e => .error e
  | .ok σ1 =>
    let text := σ1.lexemeStr
    .ok (σ1.addToken (match kwLookup text with | some k => k | none => .IDENTIFIER))

/-- The comment loop of `scan_token`:
`while self.peek() and self.peek() != "\n": self.advance()`. -/
def commentLoop : Nat → ScanState → Except String ScanState
  | 0, _ => .error "RecursionError: scanner fuel exhausted"
  | fuel + 1, σ =>
    match σ.peekC with
    | some c =>
      if c ≠ '\n' then
        match σ.advanceC with
        | .ok (_, σ1) => commentLoop fuel σ1
        | .error e => .error e
      else .ok σ
    | none => .ok σ

/-- `Scanner.match`: consume the next character only when it equals the
expected one. -/
def ScanState.matchC (σ : ScanState) (expected : Char) : Bool × ScanState :=
  if σ.isAtEnd then (false, σ)
  else match σ.source.get? σ.current with
    | some c => if c = expected then (true, { σ with current := σ.current + 1 }) else (false, σ)
    | none => (false, σ)

/-- `Scanner.scan_token`: dispatch on the next character.  An unexpected
character is reported through the Reporter channel and produces no token. -/
def scanToken (fuel : Nat) (σ : ScanState) : Except String ScanState :=
  match σ.advanceC with
  | .error e => .error e
  | .ok (c, σ) =>
    match c with
    | '(' => .ok (σ.addToken .LEFT_PAREN)
    | ')' => .ok (σ.addToken .RIGHT_PAREN)
    | '{' => .ok (σ.addToken .LEFT_BRACE)
    | '}' => .ok (σ.addToken .RIGHT_BRACE)
    | ',' => .ok (σ.addToken .COMMA)
    | '.' => .ok (σ.addToken .DOT)
    | '-' => .ok (σ.addToken .MINUS)
    | '+' => .ok (σ.addToken .PLUS)
    | ';' => .ok (σ.addToken .SEMICOLON)
    | '*' => .ok (σ.addToken .STAR)
    | '!' =>
      let (m, σ1) := σ.matchC '='
      .ok (σ1.addToken (if m then .BANG_EQUAL else .BANG))
    | '=' =>
      let (m, σ1) := σ.matchC '='
      .ok (σ1.addToken (if m then .EQUAL_EQUAL else .EQUAL))
    | '<' =>
      let (m, σ1) := σ.matchC '='
      .ok (σ1.addToken (if m then .LESS_EQUAL else .LESS))
    | '>' =>
      let (m, σ1) := σ.matchC '='
      .ok (σ1.addToken (if m then .GREATER_EQUAL else .GREATER))
    | '/' =>
      let (m, σ1) := σ.matchC '/'
      if m then commentLoop fuel σ1 else .ok (σ1.addToken .SLASH)
    | ' ' => .ok σ
    | '\r' => .ok σ
    | '\t' => .ok σ
    | '\n' => .ok { σ with line := σ.line + 1 }
    | '"' => scanString fuel σ
    | _ =>
      if c.isDigit then scanNumber fuel σ
      else if c.isAlpha then scanIdentifier fuel σ
      else .ok (σ.reportError ("Unexpected character " ++ String.mk [c]))

/-- `Scanner.scan_tokens`: the main loop, appending the final `EOF` token. -/
def scanTokens : Nat → ScanState → Except String ScanState
  | 0, _ => .error "RecursionError: scanner fuel exhausted"
  | fuel + 1, σ =>
    if σ.isAtEnd then
      .ok { σ with tokens := σ.tokens ++ [⟨.EOF, "", .lnil, σ.line⟩] }
    else
      match scanToken fuel { σ with start := σ.current } with
      | .error e => .error e
      | .ok σ1 => scanTokens fuel σ1

/-- Run the scanner on a source string from the initial state. -/
def scanSource (s : String) : Except String ScanState :=
  scanTokens (2 * s.length + 16)
    ⟨s.data, 0, 0, 1, [], [], false, []⟩

/-- Exceptions raised by the evaluator.  `rt` embeds the interpreter's
`RuntimeError(token, message)` from src/interpreter/error.py; `ret` embeds the
`Return(value)` signal, which that file declares as a subclass of
`RuntimeError` (`class Return(RuntimeError)`), with `token = None` and
`message = None`; `host` embeds a host-level Python exception that is not an
instance of the interpreter's `RuntimeError`. -/
inductive PyExc where
  | rt (token : Token) (message : String)
  | ret (value : Value)
  | host (msg : String)

/-- Whether an exception is an instance of the interpreter's `RuntimeError`
class — the test performed by the `except RuntimeError` clause in
`Interpreter.interpret`.  Because `Return` subclasses `RuntimeError`
(src/interpreter/error.py line 11), the return signal satisfies it too;
host exceptions do not. -/
def isRuntimeError : PyExc → Bool
  | .rt _ _ => true
  | .ret _ => true
  | .host _ => false

/-- One environment frame (src/interpreter/environment.py `Environment`):
its binding dict and the optional enclosing link.  Frames live in a heap
(`St.heap`) and are referred to by index, modelling shared mutable
references. -/
structure Frame where
  enclosing : Option Nat
  vals : List (String × Value)

/-- Python dict assignment on a string-keyed binding dict: replace the value
of an equal key or append a fresh pair. -/
def dictSet : List (String × Value) → String → Value → List (String × Value)
  | [], k, v => [(k, v)]
  | (k0, v0) :: rest, k, v =>
    if k0 = k then (k0, v) :: rest else (k0, v0) :: dictSet rest k v

/-- Python dict lookup on a string-keyed binding dict. -/
def dictGet : List (String × Value) → String → Option Value
  | [], _ => none
  | (k0, v0) :: rest, k => if k0 = k then some v0 else dictGet rest k

/-- Interpreter state: the heap of environment frames (frame 0 is the globals
environment created in `Interpreter.__init__`), the current environment id
(`self.environment`), the resolver side-table (`self.locals`), accumulated
stdout, the Reporter's runtime-error flag, a counter supplying identities for
`LoxFunction` objects, and the value the `clock` native would return. -/
structure St where
  heap : List Frame
  env : Nat
  locals : List (LKey × Nat)
  stdout : String
  hadRuntimeError : Bool
  nextFn : Nat
  clock : ℚ

/-- The state of a fresh `Interpreter`: a single globals frame binding
`"clock"` to the native. -/
def initSt (locals : List (LKey × Nat)) : St :=
  { heap := [⟨none, [("clock", .vclock)]⟩], env := 0, locals := locals,
    stdout := "", hadRuntimeError := false, nextFn := 0, clock := 0 }

/-- Replace frame `i` of the heap. -/
def setFrame (σ : St) (i : Nat) (f : Frame) : St :=
  { σ with heap := σ.heap.set i f }

/-- `Environment.define`: unconditional insert into the frame. -/
def envDefine (σ : St) (envId : Nat) (name : String) (v : Value) : St :=
  match σ.heap.get? envId with
  | some f => setFrame σ envId { f with vals := dictSet f.vals name v }
  | none => σ

/-- `Environment.get`: look up in the frame, recurse into the enclosing chain,
and raise the interpreter's `RuntimeError` with message
`Undefined Variable '<name>'.` when no frame binds the name.  The fuel bounds
the chain walk (the heap is finite and acyclic in every reachable state). -/
def envGet : Nat → St → Nat → Token → Except PyExc Value
  | 0, _, _, _ => .error (.host "RecursionError: maximum recursion depth exceeded")
  | fuel + 1, σ, envId, name =>
    match σ.heap.get? envId with
    | none => .error (.host "invalid environment id")
    | some f =>
      match dictGet f.vals name.lexeme with
      | some v => .ok v
      | none =>
        match f.enclosing with
        | some p => envGet fuel σ p name
        | none => .error (.rt name ("Undefined Variable '" ++ name.lexeme ++ "'."))

/-- `Environment.assign`: mutate the binding in the innermost frame of the
chain that defines the name, or raise the same `Undefined Variable` error. -/
def envAssign : Nat → St → Nat → Token → Value → Except PyExc Unit × St
  | 0, σ, _, _, _ => (.error (.host "RecursionError: maximum recursion depth exceeded"), σ)
  | fuel + 1, σ, envId, name, v =>
    match σ.heap.get? envId with
    | none => (.error (.host "invalid environment id"), σ)
    | some f =>
      if (dictGet f.vals name.lexeme).isSome then
        (.ok (), setFrame σ envId { f with vals := dictSet f.vals name.lexeme v })
      else
        match f.enclosing with
        | some p => envAssign fuel σ p name v
        | none => (.error (.rt name ("Undefined Variable '" ++ name.lexeme ++ "'.")), σ)

/-- The loop of `Environment.ancestor`: follow `enclosing` exactly `distance`
times starting from the current frame.  Walking past the root would
dereference `None` in Python and raise an AttributeError. -/
def ancestorGo (σ : St) : Nat → Option Nat → Except PyExc (Option Nat)
  | 0, cur => .ok cur
  | _ + 1, none => .error (.host "AttributeError: NoneType object has no attribute enclosing")
  | d + 1, some i =>
    match σ.heap.get? i with
    | none => .error (.host "invalid environment id")
    | some f => ancestorGo σ d f.enclosing

/-- `Environment.get_at(distance, name)`: a direct dict access on the
ancestor's frame — no fallback; a missing name is a host KeyError. -/
def getAt (σ : St) (envId distance : Nat) (name : String) : Except PyExc Value :=
  match ancestorGo σ distance (some envId) with
  | .error e => .error e
  | .ok none => .error (.host "AttributeError: NoneType object has no attribute values")
  | .ok (some i) =>
    match σ.heap.get? i with
    | none => .error (.host "invalid environment id")
    | some f =>
      match dictGet f.vals name with
      | some v => .ok v
      | none => .error (.host ("KeyError: " ++ name))

/-- `Environment.assign_at(distance, name, value)`: a direct dict assignment
on the ancestor's frame (which inserts the name if absent). -/
def assignAt (σ : St) (envId distance : Nat) (name : Token) (v : Value) : Except PyExc Unit × St :=
  match ancestorGo σ distance (some envId) with
  | .error e => (.error e, σ)
  | .ok none => (.error (.host "AttributeError: NoneType object has no attribute values"), σ)
  | .ok (some i) =>
    match σ.heap.get? i with
    | none => (.error (.host "invalid environment id"), σ)
    | some f => (.ok (), setFrame σ i { f with vals := dictSet f.vals name.lexeme v })

/-- `Interpreter.check_number_operands` followed by the arithmetic/relational
operation: both operands must be floats (a Python `bool` is not a `float`),
otherwise `RuntimeError "Operands must be numbers."`. -/
def numBin (op : Token) (l r : Value) (f : ℚ → ℚ → Value) : Except PyExc Value :=
  match l, r with
  | .vnum a, .vnum b => .ok (f a b)
  | _, _ => .error (.rt op "Operands must be numbers.")

/-- The operator dispatch of `Interpreter.visit_binary_expr`, applied after
both operands have been evaluated.  `+` accepts two floats or two strings;
`/` raises the host ZeroDivisionError Python raises on float division by
zero; `==`/`!=` use Python equality; an unmatched operator type falls through
and the visitor returns `None`. -/
def binaryOp (op : Token) (l r : Value) : Except PyExc Value :=
  match op.type with
  | .MINUS => numBin op l r (fun a b => .vnum (a - b))
  | .PLUS =>
    match l, r with
    | .vnum a, .vnum b => .ok (.vnum (a + b))
    | .vstr a, .vstr b => .ok (.vstr (a ++ b))
    | _, _ => .error (.rt op "Operands must be two numbers or two strings.")
  | .SLASH =>
    match l, r with
    | .vnum a, .vnum b =>
      if b = 0 then .error (.host "ZeroDivisionError: float division by zero")
      else .ok (.vnum (a / b))
    | _, _ => .error (.rt op "Operands must be numbers.")
  | .STAR => numBin op l r (fun a b => .vnum (a * b))
  | .GREATER => numBin op l r (fun a b => .vbool (decide (a > b)))
  | .GREATER_EQUAL => numBin op l r (fun a b => .vbool (decide (a ≥ b)))
  | .LESS => numBin op l r (fun a b => .vbool (decide (a < b)))
  | .LESS_EQUAL => numBin op l r (fun a b => .vbool (decide (a ≤ b)))
  | .BANG_EQUAL => .ok (.vbool (!pyEq l r))
  | .EQUAL_EQUAL => .ok (.vbool (pyEq l r))
  | _ => .ok .vnil

/-- Parameter binding performed by `LoxFunction.call`: define each parameter
name to the corresponding argument in the fresh frame (arity was already
checked by `visit_call_expr`). -/
def bindParams (ps : List Token) (args : List Value) : List (String × Value) :=
  (ps.zip args).foldl (fun acc pa => dictSet acc pa.1.lexeme pa.2) []

/-- The `Environment(self.closure)` allocation at the top of
`LoxFunction.call`: push a fresh frame whose enclosing link is the function's
closure — not the caller's environment, which plays no part here — and bind
the parameters in it.  The fresh frame's id is the old heap length. -/
def pushCallFrame (σ : St) (cl : Nat) (ps : List Token) (args : List Value) : St :=
  { σ with heap := σ.heap ++ [⟨some cl, bindParams ps args⟩] }

mutual

/-- `Interpreter.evaluate` / the expression visitors of interpreter.py. -/
def evalExpr : Nat → Expr → St → Except PyExc Value × St
  | 0, _, σ => (.error (.host "RecursionError: maximum recursion depth exceeded"), σ)
  | fuel + 1, e, σ =>
    match e with
    | .lit v => (.ok (toValue v), σ)
    | .grouping g => evalExpr fuel g σ
    | .unary op r =>
      match evalExpr fuel r σ with
      | (.error ex, σ1) => (.error ex, σ1)
      | (.ok rv, σ1) =>
        if op.type = .MINUS then
          match rv with
          | .vnum q => (.ok (.vnum (-q)), σ1)
          | _ => (.error (.rt op "Operand must be a number."), σ1)
        else if op.type = .BANG then (.ok (.vbool (!pyTruthy rv)), σ1)
        else (.ok .vnil, σ1)
    | .binary l op r =>
      match evalExpr fuel l σ with
      | (.error ex, σ1) => (.error ex, σ1)
      | (.ok lv, σ1) =>
        match evalExpr fuel r σ1 with
        | (.error ex, σ2) => (.error ex, σ2)
        | (.ok rv, σ2) => (binaryOp op lv rv, σ2)
    | .logical l op r =>
      match evalExpr fuel l σ with
      | (.error ex, σ1) => (.error ex, σ1)
      | (.ok lv, σ1) =>
        if op.type = .OR then
          if pyTruthy lv then (.ok lv, σ1) else evalExpr fuel r σ1
        else
          if !pyTruthy lv then (.ok lv, σ1) else evalExpr fuel r σ1
    | .varRef id name =>
      match localsGet σ.locals (.kvar id name) with
      | some d => (getAt σ σ.env d name.lexeme, σ)
      | none => (envGet (σ.heap.length + 1) σ 0 name, σ)
    | .assign _ name value =>
      match evalExpr fuel value σ with
      | (.error ex, σ1) => (.error ex, σ1)
      | (.ok v, σ1) =>
        match localsGet σ1.locals (.ktok name) with
        | some d =>
          match assignAt σ1 σ1.env d name v with
          | (.ok _, σ2) => (.ok v, σ2)
          | (.error ex, σ2) => (.error ex, σ2)
        | none =>
          match envAssign (σ1.heap.length + 1) σ1 0 name v with
          | (.ok _, σ2) => (.ok v, σ2)
          | (.error ex, σ2) => (.error ex, σ2)
    | .call callee paren args =>
      match evalExpr fuel callee σ with
      | (.error ex, σ1) => (.error ex, σ1)
      | (.ok cv, σ1) =>
        match evalArgs fuel args σ1 with
        | (.error ex, σ2) => (.error ex, σ2)
        | (.ok avs, σ2) =>
          match cv with
          | .vclock =>
            if avs.length ≠ 0 then
              (.error (.rt paren ("Expected 0 arguments but got " ++ toString avs.length ++ ".")), σ2)
            else (.ok (.vnum σ2.clock), σ2)
          | .vfun fnId nm ps body cl =>
            if avs.length ≠ ps.length then
              (.error (.rt paren ("Expected " ++ toString ps.length ++ " arguments but got " ++ toString avs.length ++ ".")), σ2)
            else callValue fuel (.vfun fnId nm ps body cl) avs σ2
          | _ => (.error (.rt paren "Can only call functions and classes."), σ2)

/-- Left-to-right evaluation of a call's argument list. -/
def evalArgs : Nat → List Expr → St → Except PyExc (List Value) × St
  | 0, _, σ => (.error (.host "RecursionError: maximum recursion depth exceeded"), σ)
  | _ + 1, [], σ => (.ok [], σ)
  | fuel + 1, e :: es, σ =>
    match evalExpr fuel e σ with
    | (.error ex, σ1) => (.error ex, σ1)
    | (.ok v, σ1) =>
      match evalArgs fuel es σ1 with
      | (.error ex, σ2) => (.error ex, σ2)
      | (.ok vs, σ2) => (.ok (v :: vs), σ2)

/-- `LoxFunction.call`: execute the body in the fresh frame enclosed by the
closure; catch exactly the `Return` signal and produce its value; produce
`None` on normal completion; let every other exception propagate.
(`Clock.call` is handled inline at the call site.) -/
def callValue : Nat → Value → List Value → St → Except PyExc Value × St
  | 0, _, _, σ => (.error (.host "RecursionError: maximum recursion depth exceeded"), σ)
  | fuel + 1, f, args, σ =>
    match f with
    | .vfun _ _ ps body cl =>
      match execBlock fuel body σ.heap.length (pushCallFrame σ cl ps args) with
      | (.ok _, σ2) => (.ok .vnil, σ2)
      | (.error (.ret v), σ2) => (.ok v, σ2)
      | (.error ex, σ2) => (.error ex, σ2)
    | _ => (.error (.host "TypeError: object is not callable"), σ)

/-- `Interpreter.execute_block`: switch to the given environment, run the
statements, and restore the previous environment on every exit path (the
`finally` clause). -/
def execBlock : Nat → List Stmt → Nat → St → Except PyExc Unit × St
  | 0, _, _, σ => (.error (.host "RecursionError: maximum recursion depth exceeded"), σ)
  | fuel + 1, ss, envId, σ =>
    let previous := σ.env
    match execSeq fuel ss { σ with env := envId } with
    | (r, σ1) => (r, { σ1 with env := previous })

/-- Sequential execution of a statement list, stopping at the first
exception. -/
def execSeq : Nat → List Stmt → St → Except PyExc Unit × St
  | 0, _, σ => (.error (.host "RecursionError: maximum recursion depth exceeded"), σ)
  | _ + 1, [], σ => (.ok (), σ)
  | fuel + 1, s :: rest, σ =>
    match execStmt fuel s σ with
    | (.error ex, σ1) => (.error ex, σ1)
    | (.ok _, σ1) => execSeq fuel rest σ1

/-- `Interpreter.execute` / the statement visitors of interpreter.py. -/
def execStmt : Nat → Stmt → St → Except PyExc Unit × St
  | 0, _, σ => (.error (.host "RecursionError: maximum recursion depth exceeded"), σ)
  | fuel + 1, s, σ =>
    match s with
    | .expression e =>
      match evalExpr fuel e σ with
      | (.error ex, σ1) => (.error ex, σ1)
      | (.ok _, σ1) => (.ok (), σ1)
    | .print e =>
      match evalExpr fuel e σ with
      | (.error ex, σ1) => (.error ex, σ1)
      | (.ok v, σ1) => (.ok (), { σ1 with stdout := σ1.stdout ++ stringify v ++ "\n" })
    | .varDecl name init =>
      match init with
      | none => (.ok (), envDefine σ σ.env name.lexeme .vnil)
      | some e =>
        match evalExpr fuel e σ with
        | (.error ex, σ1) => (.error ex, σ1)
        | (.ok v, σ1) => (.ok (), envDefine σ1 σ1.env name.lexeme v)
    | .block ss =>
      execBlock fuel ss σ.heap.length { σ with heap := σ.heap ++ [⟨some σ.env, []⟩] }
    | .ifS c t els =>
      match evalExpr fuel c σ with
      | (.error ex, σ1) => (.error ex, σ1)
      | (.ok cv, σ1) =>
        if pyTruthy cv then execStmt fuel t σ1
        else
          match els with
          | some el => execStmt fuel el σ1
          | none => (.ok (), σ1)
    | .whileS c b =>
      match evalExpr fuel c σ with
      | (.error ex, σ1) => (.error ex, σ1)
      | (.ok cv, σ1) =>
        if pyTruthy cv then
          match execStmt fuel b σ1 with
          | (.error ex, σ2) => (.error ex, σ2)
          | (.ok _, σ2) => execStmt fuel (.whileS c b) σ2
        else (.ok (), σ1)
    | .funDecl name ps body =>
      (.ok (), envDefine { σ with nextFn := σ.nextFn + 1 } σ.env name.lexeme
                 (.vfun σ.nextFn name ps body σ.env))
    | .returnS _ val =>
      match val with
      | none => (.error (.ret .vnil), σ)
      | some e =>
        match evalExpr fuel e σ with
        | (.error ex, σ1) => (.error ex, σ1)
        | (.ok v, σ1) => (.error (.ret v), σ1)

end

/-- `Pylox.runtime_error` (main.py): print the error's message and the line of
its token, and set `had_runtime_error`.  The `Return` signal carries
`token = None`, so reaching this handler with it dereferences `None.line`
and raises a host AttributeError instead of reporting. -/
def pyloxRuntimeError (ex : PyExc) (σ : St) : Except PyExc Unit × St :=
  match ex with
  | .rt tok msg =>
    (.ok (), { σ with
      hadRuntimeError := true,
      stdout := σ.stdout ++ msg ++ "\n[line " ++ toString tok.line ++ "]\n" })
  | _ => (.error (.host "AttributeError: NoneType object has no attribute line"), σ)

/-- `Interpreter.interpret`: execute the statements in order inside a single
`try`; an exception that is an instance of the interpreter's `RuntimeError`
(which includes the `Return` signal, a subclass) is handed to
`pylox.runtime_error`; any other exception propagates. -/
def interpret (fuel : Nat) (stmts : List Stmt) (σ : St) : Except PyExc Unit × St :=
  match execSeq fuel stmts σ with
  | (.ok _, σ1) => (.ok (), σ1)
  | (.error ex, σ1) =>
    if isRuntimeError ex then pyloxRuntimeError ex σ1
    else (.error ex, σ1)

/-- `FunctionType` from src/resolver/resolver.py. -/
inductive FunctionType where
  | NONE
  | FUNCTION
  deriving DecidableEq

/-- Resolver state: the scope stack (innermost scope first), the
`current_function` tag, and the `Interpreter.locals` side-table the resolver
writes through `interpreter.resolve`. -/
structure RSt where
  scopes : List (List (String × Bool))
  currentFunction : FunctionType
  locals : List (LKey × Nat)

/-- Lookup in one scope's name dict. -/
def scopeGet : List (String × Bool) → String → Option Bool
  | [], _ => none
  | (k0, b0) :: rest, k => if k0 = k then some b0 else scopeGet rest k

/-- Assignment in one scope's name dict. -/
def scopeSet : List (String × Bool) → String → Bool → List (String × Bool)
  | [], k, b => [(k, b)]
  | (k0, b0) :: rest, k, b =>
    if k0 = k then (k0, b) :: rest else (k0, b0) :: scopeSet rest k b

/-- `Resolver.declare`: at global scope (empty stack) do nothing.  In a local
scope, a name already present triggers `self.interpreter.error(name, "Variable
with this name already declared in this scope.")` — but `Interpreter` defines
no `error` method, so this access raises a host AttributeError and resolution
aborts; otherwise the name is marked not-ready (`False`). -/
def rdeclare (name : Token) (r : RSt) : Except String RSt :=
  match r.scopes with
  | [] => .ok r
  | s :: rest =>
    if (scopeGet s name.lexeme).isSome then
      .error "AttributeError: Interpreter object has no attribute error"
    else .ok { r with scopes := scopeSet s name.lexeme false :: rest }

/-- `Resolver.define`: mark the name ready (`True`) in the innermost scope,
if any. -/
def rdefine (name : Token) (r : RSt) : RSt :=
  match r.scopes with
  | [] => r
  | s :: rest => { r with scopes := scopeSet s name.lexeme true :: rest }

/-- The hop distance `Resolver.resolve_local` computes: the index, counted
from the innermost scope, of the first scope containing the name. -/
def scopeDepth : List (List (String × Bool)) → String → Option Nat
  | [], _ => none
  | s :: rest, n =>
    if (scopeGet s n).isSome then some 0
    else (scopeDepth rest n).map (· + 1)

/-- `Resolver.resolve_local` / `Interpreter.resolve`: record the hop distance
of the innermost scope containing the name under the given node key; if no
scope contains it the name is treated as global and nothing is written. -/
def resolveLocal (key : LKey) (name : Token) (r : RSt) : RSt :=
  match scopeDepth r.scopes name.lexeme with
  | some d => { r with locals := localsInsert r.locals key d }
  | none => r

/-- The declare/define loop over a function's parameters in
`Resolver.resolve_function` (declaring a duplicate parameter hits the same
missing `interpreter.error` attribute). -/
def rparams : List Token → RSt → Except String RSt
  | [], r => .ok r
  | p :: ps, r =>
    match rdeclare p r with
    | .error e => .error e
    | .ok r1 => rparams ps (rdefine p r1)

mutual

/-- The expression visitors of `Resolver`. -/
def rExpr : Nat → Expr → RSt → Except String RSt
  | 0, _, _ => .error "RecursionError: resolver fuel exhausted"
  | fuel + 1, e, r =>
    match e with
    | .lit _ => .ok r
    | .grouping g => rExpr fuel g r
    | .unary _ right => rExpr fuel right r
    | .binary l _ rgt =>
      match rExpr fuel l r with
      | .error er => .error er
      | .ok r1 => rExpr fuel rgt r1
    | .logical l _ rgt =>
      match rExpr fuel l r with
      | .error er => .error er
      | .ok r1 => rExpr fuel rgt r1
    | .varRef id name =>
      match r.scopes with
      | s :: _ =>
        if scopeGet s name.lexeme = some false then
          .error "AttributeError: Pylox object has no attribute resolver_error"
        else .ok (resolveLocal (.kvar id name) name r)
      | [] => .ok (resolveLocal (.kvar id name) name r)
    | .assign id name value =>
      match rExpr fuel value r with
      | .error er => .error er
      | .ok r1 => .ok (resolveLocal (.kassign id name value) name r1)
    | .call callee _ args =>
      match rExpr fuel callee r with
      | .error er => .error er
      | .ok r1 => rExprs fuel args r1

/-- Resolution of an argument list. -/
def rExprs : Nat → List Expr → RSt → Except String RSt
  | 0, _, _ => .error "RecursionError: resolver fuel exhausted"
  | _ + 1, [], r => .ok r
  | fuel + 1, e :: es, r =>
    match rExpr fuel e r with
    | .error er => .error er
    | .ok r1 => rExprs fuel es r1

/-- The statement visitors of `Resolver`. -/
def rStmt : Nat → Stmt → RSt → Except String RSt
  | 0, _, _ => .error "RecursionError: resolver fuel exhausted"
  | fuel + 1, s, r =>
    match s with
    | .expression e => rExpr fuel e r
    | .print e => rExpr fuel e r
    | .varDecl name init =>
      match rdeclare name r with
      | .error er => .error er
      | .ok r1 =>
        match init with
        | none => .ok (rdefine name r1)
        | some e =>
          match rExpr fuel e r1 with
          | .error er => .error er
          | .ok r2 => .ok (rdefine name r2)
    | .block ss =>
      match rStmts fuel ss { r with scopes := [] :: r.scopes } with
      | .error er => .error er
      | .ok r1 => .ok { r1 with scopes := r1.scopes.tail }
    | .ifS c t els =>
      match rExpr fuel c r with
      | .error er => .error er
      | .ok r1 =>
        match rStmt fuel t r1 with
        | .error er => .error er
        | .ok r2 =>
          match els with
          | none => .ok r2
          | some el => rStmt fuel el r2
    | .whileS c b =>
      match rExpr fuel c r with
      | .error er => .error er
      | .ok r1 => rStmt fuel b r1
    | .funDecl name ps body =>
      match rdeclare name r with
      | .error er => .error er
      | .ok r1 =>
        let r2 := rdefine name r1
        let enclosing := r2.currentFunction
        match rparams ps { r2 with currentFunction := .FUNCTION, scopes := [] :: r2.scopes } with
        | .error er => .error er
        | .ok r3 =>
          match rStmts fuel body r3 with
          | .error er => .error er
          | .ok r4 => .ok { r4 with scopes := r4.scopes.tail, currentFunction := enclosing }
    | .returnS _ v =>
      if r.currentFunction = .NONE then
        .error "AttributeError: Interpreter object has no attribute error"
      else
        match v with
        | none => .ok r
        | some e => rExpr fuel e r

/-- `Resolver.resolve` on a statement list. -/
def rStmts : Nat → List Stmt → RSt → Except String RSt
  | 0, _, _ => .error "RecursionError: resolver fuel exhausted"
  | _ + 1, [], r => .ok r
  | fuel + 1, s :: rest, r =>
    match rStmt fuel s r with
    | .error er => .error er
    | .ok r1 => rStmts fuel rest r1

end

/-- Run the resolver on a program from the initial state (empty scope stack,
`current_function = NONE`, empty side-table). -/
def resolveProgram (fuel : Nat) (stmts : List Stmt) : Except String RSt :=
  rStmts fuel stmts ⟨[], .NONE, []⟩

/-- Resolve, then interpret with the produced side-table — the intended
pipeline (scan → parse → resolve → interpret). -/
def runPipeline (fuel : Nat) (stmts : List Stmt) : Except String (Except PyExc Unit × St) :=
  match resolveProgram fuel stmts with
  | .error e => .error e
  | .ok r => .ok (interpret fuel stmts (initSt r.locals))

/-- The stdout produced by the pipeline, when resolution does not abort. -/
def pipeStdout (fuel : Nat) (stmts : List Stmt) : Option String :=
  match runPipeline fuel stmts with
  | .ok (_, σ) => some σ.stdout
  | .error _ => none

/-- The side-table contents after resolution. -/
def pipeLocals (fuel : Nat) (stmts : List Stmt) : Except String (List (LKey × Nat)) :=
  (resolveProgram fuel stmts).map (·.locals)

/-- Interpretation without a resolver pass (the wiring of `Pylox.run` in
main.py, which never instantiates the Resolver, so `locals` stays empty). -/
def interpretTop (fuel : Nat) (stmts : List Stmt) : Except PyExc Unit × St :=
  interpret fuel stmts (initSt [])

/- Concrete tokens and programs used by the theorems below. -/

/-- An identifier token on line 1. -/
def identTok (s : String) : Token := ⟨.IDENTIFIER, s, .lnil, 1⟩

/-- The token `a`. -/
def tokA : Token := identTok "a"

/-- The token `f`. -/
def tokF : Token := identTok "f"

/-- The token `x`. -/
def tokX : Token := identTok "x"

/-- The token `geti`. -/
def tokGeti : Token := identTok "geti"

/-- The token `make`. -/
def tokMake : Token := identTok "make"

/-- The token `g`. -/
def tokG : Token := identTok "g"

/-- A closing-paren token (the `paren` field of a `Call`). -/
def parenTok : Token := ⟨.RIGHT_PAREN, ")", .lnil, 1⟩

/-- A `return` keyword token. -/
def kwRet : Token := ⟨.RETURN, "return", .lnil, 1⟩

/-- An `==` operator token. -/
def opEqEq : Token := ⟨.EQUAL_EQUAL, "==", .lnil, 1⟩

/-- `if (0) print "then"; else print "else";` -/
def ifZeroProg : List Stmt :=
  [.ifS (.lit (.lnum 0)) (.print (.lit (.lstr "then")))
     (some (.print (.lit (.lstr "else"))))]

/-- `print true;` -/
def printTrueProg : List Stmt := [.print (.lit (.lbool true))]

/-- `return 5;` at top level. -/
def retTopProg : List Stmt := [.returnS kwRet (some (.lit (.lnum 5)))]

/-- `{ var a = 1; fun f() { print a; } print a; }` — two distinct `Variable`
nodes (identities 1 and 2) whose name tokens are structurally equal, resolved
at hop distances 1 and 0 respectively. -/
def twoRefsProg : List Stmt :=
  [.block
     [.varDecl tokA (some (.lit (.lnum 1))),
      .funDecl tokF [] [.print (.varRef 1 tokA)],
      .print (.varRef 2 tokA)]]

/-- The same program without the second (outer) reference. -/
def oneRefProg : List Stmt :=
  [.block
     [.varDecl tokA (some (.lit (.lnum 1))),
      .funDecl tokF [] [.print (.varRef 1 tokA)]]]

/-- `{ var a = 1; var a = 2; }` — a duplicate declaration in a local scope. -/
def dupLocalProg : List Stmt :=
  [.block
     [.varDecl tokA (some (.lit (.lnum 1))),
      .varDecl tokA (some (.lit (.lnum 2)))]]

/-- `var a = 1; var a = 2; print a;` — a duplicate declaration at global
scope. -/
def dupGlobalProg : List Stmt :=
  [.varDecl tokA (some (.lit (.lnum 1))),
   .varDecl tokA (some (.lit (.lnum 2))),
   .print (.varRef 5 tokA)]

/-- `fun make() { var x = 42; fun geti() { return x; } return geti; }
var g = make(); print g();` — the closure returned by `make` must read `x`
through its captured defining environment (hop distance 1 from the call
frame); were the closure the caller's environment, the read would miss. -/
def closureProg : List Stmt :=
  [.funDecl tokMake []
     [.varDecl tokX (some (.lit (.lnum 42))),
      .funDecl tokGeti [] [.returnS kwRet (some (.varRef 1 tokX))],
      .returnS kwRet (some (.varRef 2 tokGeti))],
   .varDecl tokG (some (.call (.varRef 3 tokMake) parenTok [])),
   .print (.call (.varRef 4 tokG) parenTok [])]

/-- `var a = 1; print a = 3;` -/
def assignChainProg : List Stmt :=
  [.varDecl tokA (some (.lit (.lnum 1))),
   .print (.assign 7 tokA (.lit (.lnum 3)))]

/-- Equality as the amended claim C5 words it: values of the same variant
compare by value; `nil == nil` is true; a boolean compared against a number
compares as the number 1 or 0 (Python treats `bool` as an `int` subtype);
callables compare by identity; every other cross-variant comparison is
false. -/
def specEqAmended : Value → Value → Bool
  | .vnil, .vnil => true
  | .vbool a, .vbool b => a == b
  | .vnum a, .vnum b => a == b
  | .vstr a, .vstr b => a == b
  | .vclock, .vclock => true
  | .vfun i _ _ _ _, .vfun j _ _ _ _ => i == j
  | .vbool a, .vnum q => (if a then (1 : ℚ) else 0) == q
  | .vnum q, .vbool a => q == (if a then (1 : ℚ) else 0)
  | _, _ => false

/-- Observable scanner outcome: the Reporter flag, the Reporter channel, the
bare-print channel, and the number of tokens produced. -/
def scanObs (s : String) : Option (Bool × List String × List String × Nat) :=
  match scanSource s with
  | .ok σ => some (σ.hadError, σ.reports, σ.printed, σ.tokens.length)
  | .error _ => none

/-- A state whose globals bind `a` to `1`. -/
def stWithA : St := envDefine (initSt []) 0 "a" (.vnum 1)

/-- The same state after `a` is assigned `3`. -/
def stWithA3 : St := envDefine stWithA 0 "a" (.vnum 3)

/-- Python equality on literal payloads is reflexive. -/
theorem pyEqLit_refl (l : LitVal) : pyEqLit l l = true := by
  cases l <;> simp [pyEqLit]

/-- Python equality on tokens is reflexive. -/
theorem tokenEq_refl (t : Token) : tokenEq t t = true := by
  simp [tokenEq, pyEqLit_refl]

/-- Claim C1, counterexample.  The claim says every value other than `nil` and
`false` — explicitly including the number 0 and the empty string — is truthy
in condition position.  In the code the test is Python truthiness: the number
0 and the empty string are falsey (neither being `nil` nor `false`), and
executing `if (0) print "then"; else print "else";` runs the else branch. -/
theorem truthiness_claim_counterexample :
    pyTruthy (Value.vnum 0) = false ∧ pyTruthy (Value.vstr "") = false ∧
    Value.vnum 0 ≠ Value.vnil ∧ Value.vnum 0 ≠ Value.vbool false ∧
    Value.vstr "" ≠ Value.vnil ∧ Value.vstr "" ≠ Value.vbool false ∧
    (interpretTop 100 ifZeroProg).2.stdout = "else\n" :=
  ⟨by decide, by decide, fun h => Value.noConfusion h, fun h => Value.noConfusion h,
   fun h => Value.noConfusion h, fun h => Value.noConfusion h, rfl⟩

/-- Claim C1, amended.  The condition/logical test applied by `visit_if_stmt`,
`visit_while_stmt`, `visit_logical_expr` and unary `!` is `pyTruthy` (host
Python truthiness): a value tests falsey exactly when it is `nil`, `false`,
the number 0 or the empty string; every other value — including callables —
is truthy. -/
theorem truthiness_amended (v : Value) :
    pyTruthy v = false ↔
      (v = Value.vnil ∨ v = Value.vbool false ∨ v = Value.vnum 0 ∨ v = Value.vstr "") := by
  cases v <;> simp [pyTruthy]

/-- Claim C3, counterexample.  The claim says booleans stringify to
`"true"`/`"false"`; `Interpreter.stringify` falls through to Python `str`,
which renders `"True"`/`"False"`, so `print true;` writes `True`. -/
theorem stringify_bool_counterexample :
    stringify (Value.vbool true) = "True" ∧
    stringify (Value.vbool true) ≠ "true" ∧
    (interpretTop 100 printTrueProg).2.stdout = "True\n" :=
  ⟨rfl, by decide, rfl⟩

/-- Claim C3, amended.  Stringification used by `Print`: `nil` maps to
`"nil"`; booleans map to Python `str`, i.e. capitalized `"True"`/`"False"`;
numbers map to the host float-to-string text with a trailing `".0"` removed;
strings map to themselves; and `visit_print_stmt` writes the stringified
value to stdout followed by a newline. -/
theorem stringify_amended :
    stringify Value.vnil = "nil" ∧
    (∀ b, stringify (Value.vbool b) = if b then "True" else "False") ∧
    (∀ s, stringify (Value.vstr s) = s) ∧
    (∀ q, stringify (Value.vnum q) = stripDotZero (floatStr q)) ∧
    (∀ fuel lv σ, execStmt (fuel + 2) (Stmt.print (Expr.lit lv)) σ =
      (.ok (), { σ with stdout := σ.stdout ++ stringify (toValue lv) ++ "\n" })) :=
  ⟨rfl, fun b => by cases b <;> rfl, fun s => rfl, fun q => rfl,
   fun fuel lv σ => rfl⟩

/-- Claim C5, counterexample.  The claim says every cross-variant `==`
comparison yields false; but Python's `bool` is an `int` subclass, so the
boolean `true` compares equal to the number 1: evaluating `true == 1`
produces `true`. -/
theorem equality_cross_variant_counterexample :
    pyEq (Value.vbool true) (Value.vnum 1) = true ∧
    (evalExpr 50 (Expr.binary (.lit (.lbool true)) opEqEq (.lit (.lnum 1))) (initSt [])).1 =
      .ok (Value.vbool true) :=
  ⟨by decide, rfl⟩

/-- Claim C5, amended.  The equality used by `==`/`!=` compares same-variant
values by value (`nil == nil` true, numbers numerically, callables by
identity), yields false on cross-variant comparisons except that a boolean
compared with a number compares as the number 1 or 0 — `pyEq` coincides with
that reading (`specEqAmended`). -/
theorem equality_amended (a b : Value) : pyEq a b = specEqAmended a b := by
  cases a <;> cases b <;> rfl

/-- Claim C4, counterexample.  The claim says the return signal is never
caught by the generic runtime-error channel of the top-level interpret loop.
But `Return` subclasses the interpreter's `RuntimeError` (so the
`except RuntimeError` test holds of it), and a top-level `return 5;` is
caught by that clause and handed to `pylox.runtime_error`, whose access to
the signal's absent token then raises a host AttributeError — rather than
the signal propagating uncaught. -/
theorem return_subclass_counterexample :
    isRuntimeError (PyExc.ret (Value.vnum 5)) = true ∧
    interpretTop 100 retTopProg =
      (.error (.host "AttributeError: NoneType object has no attribute line"), initSt []) :=
  ⟨rfl, rfl⟩

/-- Claim C4, amended.  The return signal is a distinct variant carrying a
value; the function-call boundary (`LoxFunction.call`) catches exactly it and
yields the carried value.  However `Return` is declared a subclass of the
interpreter's `RuntimeError`, so the `except RuntimeError` channel of the
top-level interpret loop also applies to an escaping return signal (host
exceptions, by contrast, satisfy neither). -/
theorem return_signal_amended :
    (∀ (fuel id : Nat) (nm : Token) (ps : List Token) (bd : List Stmt)
       (cl : Nat) (args : List Value) (σ σ2 : St) (v : Value),
       execBlock fuel bd σ.heap.length (pushCallFrame σ cl ps args) = (.error (.ret v), σ2) →
       callValue (fuel + 1) (.vfun id nm ps bd cl) args σ = (.ok v, σ2)) ∧
    (∀ v, isRuntimeError (PyExc.ret v) = true) ∧
    (∀ t m, isRuntimeError (PyExc.rt t m) = true) ∧
    (∀ s, isRuntimeError (PyExc.host s) = false) := by
  refine ⟨?_, fun _ => rfl, fun _ _ => rfl, fun _ => rfl⟩
  intro fuel id nm ps bd cl args σ σ2 v h
  simp only [callValue, h]

/-- Witness for C4's amended theorem: a zero-parameter function whose body is
`return 7;` — its body execution raises the return signal, and the call
boundary turns it into the value 7. -/
theorem return_signal_amended_witness :
    callValue 9 (.vfun 0 tokF [] [.returnS kwRet (some (.lit (.lnum 7)))] 0) []
        (initSt []) =
      (.ok (Value.vnum 7), pushCallFrame (initSt []) 0 [] []) :=
  return_signal_amended.1 8 0 tokF [] [.returnS kwRet (some (.lit (.lnum 7)))] 0 []
    (initSt []) (pushCallFrame (initSt []) 0 [] []) (Value.vnum 7) rfl

/-- Claim C6, counterexample.  The claim says the side-table is keyed by node
identity and distinct reference nodes never share or overwrite an entry.  In
`{ var a = 1; fun f() { print a; } print a; }` the two distinct `Variable`
nodes (identities 1 and 2, structurally equal name tokens) end as a single
shared entry: alone, the function-body reference is recorded at hop distance
1, but after the outer reference is resolved the table holds one entry whose
depth has been overwritten to 0. -/
theorem side_table_identity_counterexample :
    lkeyEq (LKey.kvar 1 tokA) (LKey.kvar 2 tokA) = true ∧
    pipeLocals 100 oneRefProg = .ok [(LKey.kvar 1 tokA, 1)] ∧
    pipeLocals 100 twoRefsProg = .ok [(LKey.kvar 1 tokA, 0)] :=
  ⟨rfl, rfl, rfl⟩

/-- Claim C6, amended.  The side-table is keyed by the structural Python
equality of the nodes — a `Variable` key is, up to equality, its name token
(`Variable.__eq__`/`__hash__` compare only `name`), identity playing no
part; therefore `Variable` references with structurally equal name tokens
share a single entry, which a later `resolve` call overwrites in place
(leaving the table's size unchanged), while a reference with a distinct key
gets its own appended entry. -/
theorem side_table_structural_amended :
    (∀ (i j : Nat) (t u : Token), lkeyEq (.kvar i t) (.kvar j u) = tokenEq t u) ∧
    (∀ tbl (k : LKey) (d : Nat), (localsInsert tbl k d).length =
       if localsHasKey tbl k then tbl.length else tbl.length + 1) ∧
    (∀ tbl (i j d : Nat) (t : Token),
       localsGet (localsInsert tbl (.kvar i t) d) (.kvar j t) = some d) := by
  refine ⟨fun _ _ _ _ => rfl, ?_, ?_⟩
  · intro tbl k d
    induction tbl with
    | nil => simp [localsInsert, localsHasKey, localsGet]
    | cons hd tl ih =>
      obtain ⟨k0, d0⟩ := hd
      by_cases h : lkeyEq k0 k = true
      · simp [localsInsert, localsHasKey, localsGet, h]
      · simp only [Bool.not_eq_true] at h
        simp [localsInsert, localsHasKey, localsGet, h, ih]
        split <;> rfl
  · intro tbl i j d t
    induction tbl with
    | nil => simp [localsInsert, localsGet, lkeyEq, tokenEq_refl]
    | cons hd tl ih =>
      obtain ⟨k0, d0⟩ := hd
      by_cases h : lkeyEq k0 (.kvar i t) = true
      · have h2 : lkeyEq k0 (.kvar j t) = true := by
          cases k0 <;> simp_all [lkeyEq]
        simp [localsInsert, localsGet, h, h2]
      · have h2 : lkeyEq k0 (.kvar j t) = false := by
          cases k0 <;> simp_all [lkeyEq]
        simp only [Bool.not_eq_true] at h
        simp [localsInsert, localsGet, h, h2, ih]

/-- Claim C7, code bug.  The claim says scanning never raises a host
exception and that lexical errors go through the Reporter's compile-error
channel.  Scanning `1.` raises a host AttributeError (`peek_next()` is `None`
at end of input and `.isdigit()` is called on it); and an unterminated string
is reported with a bare `print` that leaves the Reporter untouched
(`had_error` stays false), emitting only the `EOF` token — while an
unexpected character does go through the Reporter as claimed. -/
theorem scanner_host_crash :
    scanSource "1." = .error "AttributeError: NoneType object has no attribute isdigit" ∧
    scanObs "\"ab" = some (false, [], ["[Line: 1] Error: Unterminated string."], 1) ∧
    scanObs "@" = some (true, ["[line 1] Error: Unexpected character @"], [], 1) :=
  ⟨rfl, rfl, rfl⟩

/-- Claim C8, code bug.  Redeclaring at global scope is indeed permitted and
simply overwrites (resolution writes no entry and succeeds, and execution
prints the second value).  But in a non-global scope, `Resolver.declare`
reaches for `self.interpreter.error`, an attribute `Interpreter` does not
define, so `{ var a = 1; var a = 2; }` aborts resolution with a host
AttributeError instead of reporting the documented message through the
error channel and continuing. -/
theorem redeclare_local_crash :
    (resolveProgram 100 dupLocalProg).isOk = false ∧
    resolveProgram 100 dupLocalProg =
      .error "AttributeError: Interpreter object has no attribute error" ∧
    pipeLocals 100 dupGlobalProg = .ok [] ∧
    (interpretTop 100 dupGlobalProg).2.stdout = "2\n" :=
  ⟨rfl, rfl, rfl, rfl⟩

set_option maxHeartbeats 1600000 in
/-- Claim C9, confirmed.  Executing a `Function` statement in any state binds
the name, in the environment current at that statement, to a function value
whose closure is exactly that current environment — whatever the surrounding
state, so never a caller's environment; `LoxFunction.call` allocates a fresh
frame whose enclosing link is the function's stored closure; and the closure
program (where `make`'s local `x` is readable only through the returned
function's captured defining environment, at hop distance 1) prints `42`. -/
theorem closure_capture :
    (∀ (fuel : Nat) (nm : Token) (ps : List Token) (bd : List Stmt) (σ : St),
       execStmt (fuel + 1) (.funDecl nm ps bd) σ =
         (.ok (), envDefine { σ with nextFn := σ.nextFn + 1 } σ.env nm.lexeme
                    (.vfun σ.nextFn nm ps bd σ.env))) ∧
    (∀ (σ : St) (cl : Nat) (ps : List Token) (args : List Value),
       (pushCallFrame σ cl ps args).heap.get? σ.heap.length =
         some ⟨some cl, bindParams ps args⟩) ∧
    pipeStdout 200 closureProg = some "42\n" := by
  refine ⟨fun fuel nm ps bd σ => rfl, ?_, rfl⟩
  intro σ cl ps args
  simp [pushCallFrame, List.get?_concat_length]

/-- Claim C10, confirmed.  Whenever an `Assign` expression evaluates without
an exception, the value of the whole expression is the value the right-hand
side evaluated to — `visit_assign_expr` returns `value` on the side-table
branch and on the globals branch alike. -/
theorem assign_result_value (fuel id : Nat) (name : Token) (rhs : Expr) (σ : St)
    (v : Value) (σ' : St)
    (h : evalExpr (fuel + 1) (.assign id name rhs) σ = (.ok v, σ')) :
    (evalExpr fuel rhs σ).1 = .ok v := by
  simp only [evalExpr] at h
  split at h <;>
    first
      | (split at h <;>
          first
            | (split at h <;> simp_all)
            | simp_all)
      | simp_all

/-- Witness for C10: in a state whose globals bind `a`, evaluating `a = 3`
succeeds with value 3, which is the value of the right-hand side. -/
theorem assign_result_value_witness :
    (evalExpr 9 (.lit (.lnum 3)) stWithA).1 = .ok (Value.vnum 3) :=
  assign_result_value 9 7 tokA (.lit (.lnum 3)) stWithA (Value.vnum 3) stWithA3 rfl

end Pylox
